import Mathlib

/-!
Shallow embedding of the song-resolution and playlist-population pipeline of
`txt_to_ytmusic` (files `ytmusic_api.py` and `playlist_manager.py`), together
with theorems settling the specification claims about it.

The remote YouTube Music client is modelled as a pure record of response
functions: `search` maps a query string and a filter category to either an
exception (modelled by its message string, as Python's `str(e)`) or a list of
result records, and `addPlaylistItems` maps the call arguments plus a global
call counter to either an exception or a response record.  Threading the call
counter makes stateful remote behaviour (e.g. "fails twice then succeeds")
expressible, and counting calls lets theorems speak about how many remote
insertions were attempted.  Python dictionaries are modelled as association
lists; `None` and the empty dict are both falsy in the source, so both are
modelled by the empty list.
-/

namespace TxtToYtmusic

/-- Search filter category passed to `yt.search` (`filter='songs'` or
`filter='videos'`). -/
inductive SearchFilter where
  | songs
  | videos
deriving DecidableEq

/-- A search result record.  The source reads two fields from the result
dict: `result.get('title', '')` and `result.get('videoId')`; both may be
absent, which `Option` models. -/
structure SearchResult where
  title : Option String
  videoId : Option String
deriving DecidableEq

/-- The response record of `yt.add_playlist_items`, modelled as an
association list (the source reads it with `'status' in response` /
`response['status']` and tests its truthiness).  `[]` models both `None`
and an empty dict, which the source treats identically (both falsy). -/
abbrev Response := List (String × String)

/-- The remote client `yt`: pure response functions for the two remote
operations the pipeline performs.  An `Except.error e` models the remote
call raising an exception with message `e`. -/
structure YTMusic where
  search : String → SearchFilter → Except String (List SearchResult)
  addPlaylistItems : String → List String → Bool → Nat → Except String Response

/-- The per-item outcome string returned by `add_item_to_playlist`:
`"success"`, `"duplicate"` or `"failure"`. -/
inductive Status where
  | success
  | duplicate
  | failure
deriving DecidableEq

/-- Python `set.add` on the registry of seen video ids, modelled on lists:
insert the element unless it is already present. -/
def setAdd (s : List String) (x : String) : List String :=
  if x ∈ s then s else x :: s

/-- Substring containment on character lists (Python's `in` on strings):
the needle is a prefix of some suffix of the haystack. -/
def hasSubstring : List Char → List Char → Bool
  | needle, [] => needle.isEmpty
  | needle, c :: rest => needle.isPrefixOf (c :: rest) || hasSubstring needle rest

/-- The source's conflict test: `"http 409: conflict" in str(e).lower()`
(case-insensitive substring containment, with lowercasing modelled
character by character). -/
def isConflict (e : String) : Bool :=
  hasSubstring "http 409: conflict".toList (e.toList.map Char.toLower)

/-- The result of one `add_item_to_playlist` call: the outcome status, the
updated registry (`unique_songs`), the updated global remote-call counter,
and the backoff sleep durations performed (in order). -/
structure ItemResult where
  status : Status
  uniqueSongs : List String
  calls : Nat
  sleeps : List Nat
deriving DecidableEq

/-- `playlist_manager.add_item_to_playlist`: add a single item with
retry-on-conflict logic.  Faithful to the source: duplicate short-circuit
before any remote call; a response with `status == 'STATUS_SUCCEEDED'`
registers the video id and returns success; any other truthy response is
optimistic success without registering; a falsy response is failure; an
exception whose lowercased message contains `"http 409: conflict"` is
retried (sleeping `retry_delay * retries` after incrementing `retries`)
while `retries < max_retries`, and every other exception fails
immediately. -/
def add_item_to_playlist (yt : YTMusic) (playlist_id video_id query : String)
    (retries max_retries retry_delay : Nat) (allow_duplicates : Bool)
    (unique_songs : List String) (calls : Nat) : ItemResult :=
  if video_id ∈ unique_songs ∧ allow_duplicates = false then
    ⟨.duplicate, unique_songs, calls, []⟩
  else
    match yt.addPlaylistItems playlist_id [video_id] allow_duplicates calls with
    | .ok response =>
      if response.lookup "status" = some "STATUS_SUCCEEDED" then
        ⟨.success, setAdd unique_songs video_id, calls + 1, []⟩
      else if response ≠ [] then
        ⟨.success, unique_songs, calls + 1, []⟩
      else
        ⟨.failure, unique_songs, calls + 1, []⟩
    | .error e =>
      if h : isConflict e = true ∧ retries < max_retries then
        let retries1 := retries + 1
        let wait_time := retry_delay * retries1
        let rest := add_item_to_playlist yt playlist_id video_id query retries1
          max_retries retry_delay allow_duplicates unique_songs (calls + 1)
        ⟨rest.status, rest.uniqueSongs, rest.calls, wait_time :: rest.sleeps⟩
      else
        ⟨.failure, unique_songs, calls + 1, []⟩
termination_by max_retries - retries
decreasing_by omega

/-- The perfect-match scan of `search_song`: the first result whose
`title` (defaulting to `''` when absent) equals the query
case-insensitively. -/
def findPerfectMatch (query : String) (results : List SearchResult) :
    Option SearchResult :=
  results.find? fun r => (r.title.getD "").toLower == query.toLower

/-- Lines 158-179 of `ytmusic_api.search_song`: the video-search fallback
reached when the song search yields no results, or yields no perfect match
in perfect mode. -/
def searchVideoFallback (yt : YTMusic) (formatted_query query : String)
    (perfect_match : Bool) : Except String (Option SearchResult) :=
  match yt.search formatted_query .videos with
  | .error e => .error e
  | .ok video_results =>
    if video_results = [] then
      .ok none
    else if perfect_match then
      match findPerfectMatch query video_results with
      | some r => .ok (some r)
      | none => .ok none
    else
      .ok video_results.head?

/-- `ytmusic_api.search_song`: resolve a query.  In perfect mode the query
is wrapped in double quotes before both remote searches; song results are
scanned for a case-insensitive exact title match, falling back to the same
scan over video results; in non-perfect mode the first song result is
taken, falling back to the first video result.  `Except.error` models a
remote search raising (the source has no `try` here, so it propagates). -/
def search_song (yt : YTMusic) (query : String) (perfect_match : Bool) :
    Except String (Option SearchResult) :=
  let formatted_query := if perfect_match then "\"" ++ query ++ "\"" else query
  match yt.search formatted_query .songs with
  | .error e => .error e
  | .ok results =>
    if results = [] then
      searchVideoFallback yt formatted_query query perfect_match
    else if perfect_match then
      match findPerfectMatch query results with
      | some r => .ok (some r)
      | none => searchVideoFallback yt formatted_query query perfect_match
    else
      .ok results.head?

/-- The accumulator state of the `add_songs_to_playlist` loop: the four
result buckets, the registry of unique video ids, and the global
remote-call counter. -/
structure RunState where
  successful : List String
  failed : List String
  not_found : List String
  duplicates : List String
  unique_songs : List String
  calls : Nat
deriving DecidableEq

/-- The report dict returned by `add_songs_to_playlist`. -/
structure RunReport where
  total : Nat
  successful : List String
  failed : List String
  not_found : List String
  duplicates : List String
deriving DecidableEq

/-- One iteration of the `add_songs_to_playlist` loop body: resolve the
query (perfect_match defaults to false in the source call), bucket it as
not_found / failed (no usable video id) / per the insertion status.  A
search exception propagates (the loop body has no `try`). -/
def processQuery (yt : YTMusic) (playlist_id : String)
    (max_retries retry_delay : Nat) (allow_duplicates : Bool)
    (st : RunState) (query : String) : Except String RunState :=
  match search_song yt query false with
  | .error e => .error e
  | .ok none => .ok { st with not_found := st.not_found ++ [query] }
  | .ok (some r) =>
    let video_id := r.videoId.getD ""
    if video_id = "" then
      .ok { st with failed := st.failed ++ [query] }
    else
      let ir := add_item_to_playlist yt playlist_id video_id query 0 max_retries
        retry_delay allow_duplicates st.unique_songs st.calls
      match ir.status with
      | .success => .ok { st with
          successful := st.successful ++ [query]
          unique_songs := ir.uniqueSongs
          calls := ir.calls }
      | .duplicate => .ok { st with
          duplicates := st.duplicates ++ [query]
          unique_songs := ir.uniqueSongs
          calls := ir.calls }
      | .failure => .ok { st with
          failed := st.failed ++ [query]
          unique_songs := ir.uniqueSongs
          calls := ir.calls }

/-- The `for` loop of `add_songs_to_playlist` over the remaining queries. -/
def runQueries (yt : YTMusic) (playlist_id : String) (queries : List String)
    (max_retries retry_delay : Nat) (allow_duplicates : Bool)
    (st : RunState) : Except String RunState :=
  match queries with
  | [] => .ok st
  | q :: rest =>
    match processQuery yt playlist_id max_retries retry_delay
        allow_duplicates st q with
    | .error e => .error e
    | .ok st1 =>
      runQueries yt playlist_id rest max_retries retry_delay allow_duplicates st1

/-- `playlist_manager.add_songs_to_playlist`: process every query in order,
starting from empty buckets and an empty registry, and return the report
with `total = len(song_queries)` and the four buckets.  `Except.error`
models an uncaught exception aborting the run. -/
def add_songs_to_playlist (yt : YTMusic) (playlist_id : String)
    (song_queries : List String) (max_retries retry_delay : Nat)
    (allow_duplicates : Bool) : Except String RunReport :=
  match runQueries yt playlist_id song_queries max_retries retry_delay
      allow_duplicates ⟨[], [], [], [], [], 0⟩ with
  | .error e => .error e
  | .ok st =>
    .ok ⟨song_queries.length, st.successful, st.failed, st.not_found,
      st.duplicates⟩

/-! ### Step lemmas for `add_item_to_playlist`

One lemma per branch of the source function, unfolding a single call. -/

lemma addItem_dup (yt : YTMusic) (pid vid q : String) (retries mr rd : Nat)
    (ad : Bool) (us : List String) (calls : Nat)
    (hd : vid ∈ us ∧ ad = false) :
    add_item_to_playlist yt pid vid q retries mr rd ad us calls =
      ⟨.duplicate, us, calls, []⟩ := by
  rw [add_item_to_playlist, if_pos hd]

lemma addItem_ok (yt : YTMusic) (pid vid q : String) (retries mr rd : Nat)
    (ad : Bool) (us : List String) (calls : Nat) (resp : Response)
    (hd : ¬(vid ∈ us ∧ ad = false))
    (hresp : yt.addPlaylistItems pid [vid] ad calls = .ok resp) :
    add_item_to_playlist yt pid vid q retries mr rd ad us calls =
      if resp.lookup "status" = some "STATUS_SUCCEEDED" then
        ⟨.success, setAdd us vid, calls + 1, []⟩
      else if resp ≠ [] then
        ⟨.success, us, calls + 1, []⟩
      else
        ⟨.failure, us, calls + 1, []⟩ := by
  rw [add_item_to_playlist, if_neg hd, hresp]

lemma addItem_err_retry (yt : YTMusic) (pid vid q : String) (retries mr rd : Nat)
    (ad : Bool) (us : List String) (calls : Nat) (e : String)
    (hd : ¬(vid ∈ us ∧ ad = false))
    (hresp : yt.addPlaylistItems pid [vid] ad calls = .error e)
    (hc : isConflict e = true) (hlt : retries < mr) :
    add_item_to_playlist yt pid vid q retries mr rd ad us calls =
      { add_item_to_playlist yt pid vid q (retries + 1) mr rd ad us (calls + 1) with
        sleeps := rd * (retries + 1) ::
          (add_item_to_playlist yt pid vid q (retries + 1) mr rd ad us (calls + 1)).sleeps } := by
  rw [add_item_to_playlist, if_neg hd, hresp]
  exact dif_pos ⟨hc, hlt⟩

lemma addItem_err_stop (yt : YTMusic) (pid vid q : String) (retries mr rd : Nat)
    (ad : Bool) (us : List String) (calls : Nat) (e : String)
    (hd : ¬(vid ∈ us ∧ ad = false))
    (hresp : yt.addPlaylistItems pid [vid] ad calls = .error e)
    (hstop : ¬(isConflict e = true ∧ retries < mr)) :
    add_item_to_playlist yt pid vid q retries mr rd ad us calls =
      ⟨.failure, us, calls + 1, []⟩ := by
  rw [add_item_to_playlist, if_neg hd, hresp]
  exact dif_neg hstop

/-! ### Behaviour of the retry loop -/

/-- Under a remote that raises a 409 conflict on every insertion call, the
whole retry loop fails after `mr - retries` retries, having made
`mr - retries + 1` remote calls and slept
`rd * (retries+1), rd * (retries+2), …` in order. -/
lemma addItem_persistent_conflict (yt : YTMusic) (pid vid q : String)
    (rd : Nat) (ad : Bool) (us : List String)
    (hd : ¬(vid ∈ us ∧ ad = false))
    (herr : ∀ n, ∃ e, yt.addPlaylistItems pid [vid] ad n = .error e ∧
      isConflict e = true) :
    ∀ (k retries mr calls : Nat), mr - retries = k →
      add_item_to_playlist yt pid vid q retries mr rd ad us calls =
        ⟨.failure, us, calls + k + 1,
          (List.range k).map fun i => rd * (retries + i + 1)⟩ := by
  intro k
  induction k with
  | zero =>
    intro retries mr calls hk
    obtain ⟨e, he, hc⟩ := herr calls
    have hstop : ¬(isConflict e = true ∧ retries < mr) := fun h => by omega
    rw [addItem_err_stop yt pid vid q retries mr rd ad us calls e hd he hstop]
    simp
  | succ n ih =>
    intro retries mr calls hk
    obtain ⟨e, he, hc⟩ := herr calls
    have hlt : retries < mr := by omega
    rw [addItem_err_retry yt pid vid q retries mr rd ad us calls e hd he hc hlt]
    rw [ih (retries + 1) mr (calls + 1) (by omega)]
    have hrange : (List.range (n + 1)).map (fun i => rd * (retries + i + 1)) =
        rd * (retries + 1) ::
          (List.range n).map fun i => rd * (retries + 1 + i + 1) := by
      rw [List.range_succ_eq_map, List.map_cons, List.map_map]
      refine congrArg₂ List.cons (by simp) (List.map_congr_left ?_)
      intro a _
      simp only [Function.comp, Nat.succ_eq_add_one]
      ring
    simp only [ItemResult.mk.injEq, true_and]
    exact ⟨by omega, hrange.symm⟩

/-- A non-conflict exception on the remote insertion call is never retried:
the outcome is an immediate failure with one remote call and no sleep. -/
lemma addItem_other_error (yt : YTMusic) (pid vid q : String)
    (retries mr rd : Nat) (ad : Bool) (us : List String) (calls : Nat)
    (e : String) (hd : ¬(vid ∈ us ∧ ad = false))
    (hresp : yt.addPlaylistItems pid [vid] ad calls = .error e)
    (hc : isConflict e = false) :
    add_item_to_playlist yt pid vid q retries mr rd ad us calls =
      ⟨.failure, us, calls + 1, []⟩ :=
  addItem_err_stop yt pid vid q retries mr rd ad us calls e hd hresp
    (fun h => by simp [hc] at h)

/-- Resource bound: whatever the remote responses, the retry loop sleeps at
most `mr - retries` times (its recursion depth) and makes at most
`mr - retries + 1` remote calls. -/
lemma addItem_bounds (yt : YTMusic) (pid vid q : String) (rd : Nat)
    (ad : Bool) (us : List String) :
    ∀ (k retries mr calls : Nat), mr - retries ≤ k →
      (add_item_to_playlist yt pid vid q retries mr rd ad us calls).sleeps.length
          ≤ mr - retries ∧
      (add_item_to_playlist yt pid vid q retries mr rd ad us calls).calls
          ≤ calls + (mr - retries) + 1 := by
  intro k
  induction k with
  | zero =>
    intro retries mr calls hk
    by_cases hd : vid ∈ us ∧ ad = false
    · rw [addItem_dup yt pid vid q retries mr rd ad us calls hd]
      exact ⟨by simp, by show calls ≤ calls + (mr - retries) + 1; omega⟩
    · cases hresp : yt.addPlaylistItems pid [vid] ad calls with
      | ok resp =>
        rw [addItem_ok yt pid vid q retries mr rd ad us calls resp hd hresp]
        split_ifs <;>
          exact ⟨by simp, by show calls + 1 ≤ calls + (mr - retries) + 1; omega⟩
      | error e =>
        have hstop : ¬(isConflict e = true ∧ retries < mr) := fun h => by omega
        rw [addItem_err_stop yt pid vid q retries mr rd ad us calls e hd hresp
          hstop]
        exact ⟨by simp, by show calls + 1 ≤ calls + (mr - retries) + 1; omega⟩
  | succ n ih =>
    intro retries mr calls hk
    by_cases hd : vid ∈ us ∧ ad = false
    · rw [addItem_dup yt pid vid q retries mr rd ad us calls hd]
      exact ⟨by simp, by show calls ≤ calls + (mr - retries) + 1; omega⟩
    · cases hresp : yt.addPlaylistItems pid [vid] ad calls with
      | ok resp =>
        rw [addItem_ok yt pid vid q retries mr rd ad us calls resp hd hresp]
        split_ifs <;>
          exact ⟨by simp, by show calls + 1 ≤ calls + (mr - retries) + 1; omega⟩
      | error e =>
        by_cases hcond : isConflict e = true ∧ retries < mr
        · rw [addItem_err_retry yt pid vid q retries mr rd ad us calls e hd
            hresp hcond.1 hcond.2]
          obtain ⟨h1, h2⟩ := ih (retries + 1) mr (calls + 1) (by omega)
          constructor
          · simpa using by omega
          · simpa using by omega
        · rw [addItem_err_stop yt pid vid q retries mr rd ad us calls e hd
            hresp hcond]
          simp

/-- Frame property of the registry: a call either leaves `unique_songs`
unchanged, or inserts exactly the attempted `video_id`, and the latter
happens only on a success outcome justified by some remote response that
carried the explicit `STATUS_SUCCEEDED` marker. -/
lemma addItem_registry_frame (yt : YTMusic) (pid vid q : String) (rd : Nat)
    (ad : Bool) (us : List String) :
    ∀ (k retries mr calls : Nat), mr - retries ≤ k →
      (add_item_to_playlist yt pid vid q retries mr rd ad us calls).uniqueSongs
          = us ∨
      ((add_item_to_playlist yt pid vid q retries mr rd ad us calls).uniqueSongs
          = setAdd us vid ∧
       (add_item_to_playlist yt pid vid q retries mr rd ad us calls).status
          = .success ∧
       ∃ (n : Nat) (resp : Response), calls ≤ n ∧
         n < (add_item_to_playlist yt pid vid q retries mr rd ad us calls).calls ∧
         yt.addPlaylistItems pid [vid] ad n = .ok resp ∧
         resp.lookup "status" = some "STATUS_SUCCEEDED") := by
  intro k
  induction k with
  | zero =>
    intro retries mr calls hk
    by_cases hd : vid ∈ us ∧ ad = false
    · rw [addItem_dup yt pid vid q retries mr rd ad us calls hd]
      exact Or.inl rfl
    · cases hresp : yt.addPlaylistItems pid [vid] ad calls with
      | ok resp =>
        rw [addItem_ok yt pid vid q retries mr rd ad us calls resp hd hresp]
        by_cases hm : resp.lookup "status" = some "STATUS_SUCCEEDED"
        · rw [if_pos hm]
          exact Or.inr ⟨rfl, rfl, calls, resp, le_refl _, Nat.lt_succ_self calls,
            hresp, hm⟩
        · rw [if_neg hm]
          split_ifs <;> exact Or.inl rfl
      | error e =>
        have hstop : ¬(isConflict e = true ∧ retries < mr) := fun h => by omega
        rw [addItem_err_stop yt pid vid q retries mr rd ad us calls e hd hresp
          hstop]
        exact Or.inl rfl
  | succ n ih =>
    intro retries mr calls hk
    by_cases hd : vid ∈ us ∧ ad = false
    · rw [addItem_dup yt pid vid q retries mr rd ad us calls hd]
      exact Or.inl rfl
    · cases hresp : yt.addPlaylistItems pid [vid] ad calls with
      | ok resp =>
        rw [addItem_ok yt pid vid q retries mr rd ad us calls resp hd hresp]
        by_cases hm : resp.lookup "status" = some "STATUS_SUCCEEDED"
        · rw [if_pos hm]
          exact Or.inr ⟨rfl, rfl, calls, resp, le_refl _, Nat.lt_succ_self calls,
            hresp, hm⟩
        · rw [if_neg hm]
          split_ifs <;> exact Or.inl rfl
      | error e =>
        by_cases hcond : isConflict e = true ∧ retries < mr
        · rw [addItem_err_retry yt pid vid q retries mr rd ad us calls e hd
            hresp hcond.1 hcond.2]
          rcases ih (retries + 1) mr (calls + 1) (by omega) with h | ⟨h1, h2, m,
            resp, hm1, hm2, hm3, hm4⟩
          · exact Or.inl h
          · exact Or.inr ⟨h1, h2, m, resp, by omega, hm2, hm3, hm4⟩
        · rw [addItem_err_stop yt pid vid q retries mr rd ad us calls e hd
            hresp hcond]
          exact Or.inl rfl

/-- When the duplicate short-circuit does not apply at entry, the call
reaches the remote: the outcome is never `duplicate` and the call counter
strictly increases. -/
lemma addItem_reaches_remote (yt : YTMusic) (pid vid q : String) (rd : Nat)
    (ad : Bool) (us : List String) (hd : ¬(vid ∈ us ∧ ad = false)) :
    ∀ (k retries mr calls : Nat), mr - retries ≤ k →
      (add_item_to_playlist yt pid vid q retries mr rd ad us calls).status
          ≠ .duplicate ∧
      calls < (add_item_to_playlist yt pid vid q retries mr rd ad us calls).calls := by
  intro k
  induction k with
  | zero =>
    intro retries mr calls hk
    cases hresp : yt.addPlaylistItems pid [vid] ad calls with
    | ok resp =>
      rw [addItem_ok yt pid vid q retries mr rd ad us calls resp hd hresp]
      split_ifs <;> simp
    | error e =>
      have hstop : ¬(isConflict e = true ∧ retries < mr) := fun h => by omega
      rw [addItem_err_stop yt pid vid q retries mr rd ad us calls e hd hresp
        hstop]
      simp
  | succ n ih =>
    intro retries mr calls hk
    cases hresp : yt.addPlaylistItems pid [vid] ad calls with
    | ok resp =>
      rw [addItem_ok yt pid vid q retries mr rd ad us calls resp hd hresp]
      split_ifs <;> simp
    | error e =>
      by_cases hcond : isConflict e = true ∧ retries < mr
      · rw [addItem_err_retry yt pid vid q retries mr rd ad us calls e hd
          hresp hcond.1 hcond.2]
        obtain ⟨h1, h2⟩ := ih (retries + 1) mr (calls + 1) (by omega)
        exact ⟨by simpa using h1, by simpa using by omega⟩
      · rw [addItem_err_stop yt pid vid q retries mr rd ad us calls e hd
          hresp hcond]
        simp

/-- If no remote response ever carries the `STATUS_SUCCEEDED` marker, the
registry is returned unchanged (in particular after optimistic successes,
failures and duplicates). -/
lemma addItem_no_marker_registry (yt : YTMusic) (pid vid q : String)
    (retries mr rd : Nat) (ad : Bool) (us : List String) (calls : Nat)
    (hm : ∀ (n : Nat) (resp : Response),
      yt.addPlaylistItems pid [vid] ad n = .ok resp →
      resp.lookup "status" ≠ some "STATUS_SUCCEEDED") :
    (add_item_to_playlist yt pid vid q retries mr rd ad us calls).uniqueSongs
      = us := by
  rcases addItem_registry_frame yt pid vid q rd ad us (mr - retries) retries mr
    calls (le_refl _) with h | ⟨_, _, m, resp, _, _, h3, h4⟩
  · exact h
  · exact absurd h4 (hm m resp h3)

/-! ### Behaviour of `search_song` -/

/-- In perfect mode, with both remote searches (over the double-quoted
query) answering without raising, resolution returns the first
case-insensitive exact title match among song results, else among video
results, else `none`. -/
lemma search_song_perfect (yt : YTMusic) (query : String)
    (rs vs : List SearchResult)
    (hs : yt.search ("\"" ++ query ++ "\"") .songs = .ok rs)
    (hv : yt.search ("\"" ++ query ++ "\"") .videos = .ok vs) :
    search_song yt query true =
      .ok (match findPerfectMatch query rs with
           | some r => some r
           | none => findPerfectMatch query vs) := by
  unfold search_song searchVideoFallback
  simp only [if_true, hs, hv]
  cases rs with
  | nil =>
    simp only [if_pos rfl]
    cases vs with
    | nil => rfl
    | cons a l =>
      rw [if_neg (List.cons_ne_nil a l), if_pos trivial]
      cases hf : findPerfectMatch query (a :: l) <;> simp [hf, findPerfectMatch]
  | cons a l =>
    rw [if_neg (List.cons_ne_nil a l)]
    cases hf : findPerfectMatch query (a :: l) with
    | some r => simp [hf]
    | none =>
      simp only [hf]
      cases vs with
      | nil => rfl
      | cons b m =>
        rw [if_neg (List.cons_ne_nil b m)]
        cases hg : findPerfectMatch query (b :: m) <;> simp [hg]

/-- In non-perfect mode, with both remote searches (over the unquoted
query) answering without raising, resolution returns the first song
result, else the first video result, else `none`. -/
lemma search_song_nonperfect (yt : YTMusic) (query : String)
    (rs vs : List SearchResult)
    (hs : yt.search query .songs = .ok rs)
    (hv : yt.search query .videos = .ok vs) :
    search_song yt query false =
      .ok (match rs with | [] => vs.head? | r :: _ => some r) := by
  unfold search_song searchVideoFallback
  simp only [if_false, Bool.false_eq_true, hs, hv]
  cases rs with
  | nil =>
    cases vs with
    | nil => rfl
    | cons b m => simp
  | cons a l => simp

/-- Resolution is a function of the remote search behaviour alone: two
clients whose `search` agree resolve every query identically. -/
lemma search_song_eq_of_search_eq (yt1 yt2 : YTMusic) (query : String)
    (pm : Bool) (h : ∀ s f, yt1.search s f = yt2.search s f) :
    search_song yt1 query pm = search_song yt2 query pm := by
  have hfun : yt1.search = yt2.search := funext fun s => funext fun f => h s f
  unfold search_song searchVideoFallback
  rw [hfun]

/-! ### Behaviour of the batch loop -/

/-- The multiset of queries accumulated over the four result buckets. -/
def bucketsOf (st : RunState) : Multiset String :=
  ↑st.successful + ↑st.failed + ↑st.not_found + ↑st.duplicates

lemma coe_append_singleton (l : List String) (q : String) :
    ((l ++ [q] : List String) : Multiset String) = ↑l + {q} := by
  rw [← Multiset.coe_add]
  rfl

lemma coe_cons_multiset (q : String) (l : List String) :
    ((q :: l : List String) : Multiset String) = {q} + ↑l := by
  rw [← Multiset.cons_coe, ← Multiset.singleton_add]

/-- Each loop iteration that completes adds its query to exactly one
bucket. -/
lemma processQuery_buckets (yt : YTMusic) (pid : String) (mr rd : Nat)
    (ad : Bool) (st : RunState) (q : String) (st1 : RunState)
    (h : processQuery yt pid mr rd ad st q = .ok st1) :
    bucketsOf st1 = bucketsOf st + {q} := by
  unfold processQuery at h
  cases hs : search_song yt q false with
  | error e => rw [hs] at h; exact Except.noConfusion h
  | ok o =>
    rw [hs] at h
    cases o with
    | none =>
      cases h
      simp only [bucketsOf]
      rw [coe_append_singleton]
      abel
    | some r =>
      dsimp only at h
      by_cases hvid : r.videoId.getD "" = ""
      · rw [if_pos hvid] at h
        cases h
        simp only [bucketsOf]
        rw [coe_append_singleton]
        abel
      · rw [if_neg hvid] at h
        cases hst : (add_item_to_playlist yt pid (r.videoId.getD "") q 0 mr rd
            ad st.unique_songs st.calls).status <;>
          rw [hst] at h <;> cases h <;> simp only [bucketsOf] <;>
          rw [coe_append_singleton] <;> abel

/-- A completed loop run has added every processed query to exactly one
bucket. -/
lemma runQueries_buckets (yt : YTMusic) (pid : String) (mr rd : Nat)
    (ad : Bool) :
    ∀ (queries : List String) (st st' : RunState),
      runQueries yt pid queries mr rd ad st = .ok st' →
      bucketsOf st' = bucketsOf st + ↑queries := by
  intro queries
  induction queries with
  | nil =>
    intro st st' h
    cases h
    simp
  | cons q rest ih =>
    intro st st' h
    unfold runQueries at h
    cases hp : processQuery yt pid mr rd ad st q with
    | error e => rw [hp] at h; exact Except.noConfusion h
    | ok st1 =>
      rw [hp] at h
      rw [ih st1 st' h, processQuery_buckets yt pid mr rd ad st q st1 hp,
        coe_cons_multiset]
      abel

/-- If the remote search never raises, resolution never raises. -/
lemma search_song_total (yt : YTMusic) (q : String) (pm : Bool)
    (hs : ∀ s f, ∃ rs, yt.search s f = .ok rs) :
    ∃ o, search_song yt q pm = .ok o := by
  cases pm with
  | false =>
    obtain ⟨rs, hrs⟩ := hs q .songs
    obtain ⟨vs, hvs⟩ := hs q .videos
    exact ⟨_, search_song_nonperfect yt q rs vs hrs hvs⟩
  | true =>
    obtain ⟨rs, hrs⟩ := hs ("\"" ++ q ++ "\"") .songs
    obtain ⟨vs, hvs⟩ := hs ("\"" ++ q ++ "\"") .videos
    exact ⟨_, search_song_perfect yt q rs vs hrs hvs⟩

/-- If the remote search never raises, each loop iteration completes:
every insertion error is already caught inside `add_item_to_playlist`. -/
lemma processQuery_total (yt : YTMusic) (pid : String) (mr rd : Nat)
    (ad : Bool) (st : RunState) (q : String)
    (hs : ∀ s f, ∃ rs, yt.search s f = .ok rs) :
    ∃ st1, processQuery yt pid mr rd ad st q = .ok st1 := by
  unfold processQuery
  obtain ⟨o, ho⟩ := search_song_total yt q false hs
  rw [ho]
  cases o with
  | none => exact ⟨_, rfl⟩
  | some r =>
    dsimp only
    by_cases hvid : r.videoId.getD "" = ""
    · rw [if_pos hvid]; exact ⟨_, rfl⟩
    · rw [if_neg hvid]
      cases hst : (add_item_to_playlist yt pid (r.videoId.getD "") q 0 mr rd
          ad st.unique_songs st.calls).status <;> exact ⟨_, rfl⟩

/-- If the remote search never raises, the whole loop completes. -/
lemma runQueries_total (yt : YTMusic) (pid : String) (mr rd : Nat) (ad : Bool)
    (hs : ∀ s f, ∃ rs, yt.search s f = .ok rs) :
    ∀ (queries : List String) (st : RunState),
      ∃ st', runQueries yt pid queries mr rd ad st = .ok st' := by
  intro queries
  induction queries with
  | nil => intro st; exact ⟨st, rfl⟩
  | cons q rest ih =>
    intro st
    obtain ⟨st1, h1⟩ := processQuery_total yt pid mr rd ad st q hs
    obtain ⟨st', h2⟩ := ih st1
    refine ⟨st', ?_⟩
    unfold runQueries
    rw [h1]
    exact h2

/-! ### Concrete remote clients used to witness the theorems -/

/-- A fixed search result every query resolves to. -/
def fixedTrack : SearchResult := ⟨some "a", some "v1"⟩

/-- Client whose searches all resolve to `fixedTrack` and whose insertions
respond with the explicit succeeded-status marker. -/
def markerClient : YTMusic :=
  ⟨fun _ _ => .ok [fixedTrack],
   fun _ _ _ _ => .ok [("status", "STATUS_SUCCEEDED")]⟩

/-- Client whose insertions respond with a non-empty response that lacks
the succeeded-status marker (the optimistic-success path). -/
def optimisticClient : YTMusic :=
  ⟨fun _ _ => .ok [fixedTrack], fun _ _ _ _ => .ok [("random", "x")]⟩

/-- Client whose insertions always raise an HTTP 409 conflict. -/
def conflictClient : YTMusic :=
  ⟨fun _ _ => .ok [fixedTrack], fun _ _ _ _ => .error "HTTP 409: Conflict"⟩

/-- Client whose insertions always raise a non-conflict transport error. -/
def insertTimeoutClient : YTMusic :=
  ⟨fun _ _ => .ok [fixedTrack], fun _ _ _ _ => .error "read timed out"⟩

/-- Client whose searches always raise a transport error. -/
def searchDownClient : YTMusic :=
  ⟨fun _ _ => .error "read timed out",
   fun _ _ _ _ => .ok [("status", "STATUS_SUCCEEDED")]⟩

/-- Client with distinct song and video search results, used to exercise
the perfect-match scans. -/
def perfectClient : YTMusic :=
  ⟨fun _ f => match f with
    | .songs => .ok [⟨some "Other Song", some "s1"⟩,
        ⟨some "HELLO world", some "s2"⟩]
    | .videos => .ok [⟨some "hello WORLD", some "w1"⟩],
   fun _ _ _ _ => .ok []⟩

/-! ### The claims -/

/-- Claim C1: for every ordered sequence of song queries and every
behaviour of the remote client, a report returned by
`add_songs_to_playlist` satisfies
`total = |successful| + |failed| + |not_found| + |duplicates|`, and the
four buckets together contain exactly the input query occurrences (as a
multiset). -/
theorem claim_c1_report_invariant (yt : YTMusic) (pid : String)
    (queries : List String) (mr rd : Nat) (ad : Bool) (report : RunReport)
    (h : add_songs_to_playlist yt pid queries mr rd ad = .ok report) :
    report.total = report.successful.length + report.failed.length +
      report.not_found.length + report.duplicates.length ∧
    (↑report.successful + ↑report.failed + ↑report.not_found +
      ↑report.duplicates : Multiset String) = ↑queries := by
  unfold add_songs_to_playlist at h
  cases hr : runQueries yt pid queries mr rd ad ⟨[], [], [], [], [], 0⟩ with
  | error e => rw [hr] at h; exact Except.noConfusion h
  | ok st =>
    rw [hr] at h
    cases h
    have hb := runQueries_buckets yt pid mr rd ad queries ⟨[], [], [], [], [], 0⟩
      st hr
    have hb0 : bucketsOf ⟨[], [], [], [], [], 0⟩ = 0 := rfl
    rw [hb0, zero_add] at hb
    refine ⟨?_, hb⟩
    have hc := congrArg Multiset.card hb
    simp only [bucketsOf, Multiset.card_add, Multiset.coe_card] at hc
    show queries.length = st.successful.length + st.failed.length +
      st.not_found.length + st.duplicates.length
    omega

/-- Witness for C1: a concrete completed run (first query succeeds, the
second is suppressed as a duplicate) satisfying the invariant. -/
theorem claim_c1_report_invariant_witness :
    (⟨2, ["a"], [], [], ["b"]⟩ : RunReport).total =
      (⟨2, ["a"], [], [], ["b"]⟩ : RunReport).successful.length +
      (⟨2, ["a"], [], [], ["b"]⟩ : RunReport).failed.length +
      (⟨2, ["a"], [], [], ["b"]⟩ : RunReport).not_found.length +
      (⟨2, ["a"], [], [], ["b"]⟩ : RunReport).duplicates.length ∧
    (↑(⟨2, ["a"], [], [], ["b"]⟩ : RunReport).successful +
      ↑(⟨2, ["a"], [], [], ["b"]⟩ : RunReport).failed +
      ↑(⟨2, ["a"], [], [], ["b"]⟩ : RunReport).not_found +
      ↑(⟨2, ["a"], [], [], ["b"]⟩ : RunReport).duplicates : Multiset String) =
      ↑(["a", "b"] : List String) :=
  claim_c1_report_invariant markerClient "PL" ["a", "b"] 2 6 false
    ⟨2, ["a"], [], [], ["b"]⟩
    (by simp +decide [add_songs_to_playlist, runQueries, processQuery,
      search_song, searchVideoFallback, add_item_to_playlist, markerClient,
      fixedTrack, setAdd, List.lookup])

/-- Counterexample to C2 as stated: with `allow_duplicates = false`, both
queries resolve to the same `videoId` (the client's search is a constant
function), yet both receive Success and the duplicates bucket stays empty,
because the remote responses lack the succeeded-status marker and so the
first Success never enters the registry. -/
theorem claim_c2_counterexample :
    search_song optimisticClient "a" false =
      search_song optimisticClient "b" false ∧
    add_songs_to_playlist optimisticClient "PL" ["a", "b"] 2 6 false =
      .ok ⟨2, ["a", "b"], [], [], []⟩ :=
  ⟨rfl, by simp +decide [add_songs_to_playlist, runQueries, processQuery,
    search_song, searchVideoFallback, add_item_to_playlist, optimisticClient,
    fixedTrack, setAdd, List.lookup]⟩

/-- Claim C2 (amended): with `allow_duplicates = false`, when the remote
insertion of a not-yet-registered `video_id` answers with the explicit
succeeded-status marker, that insertion is a Success, and any later
insertion of the same `video_id` is a Duplicate decided locally — no
further remote call is made for it — regardless of which query text came
first. -/
theorem claim_c2_duplicate_suppression (yt : YTMusic) (pid vid q1 q2 : String)
    (mr rd : Nat) (us : List String) (calls : Nat) (hvid : vid ∉ us)
    (resp : Response)
    (hresp : yt.addPlaylistItems pid [vid] false calls = .ok resp)
    (hmarker : resp.lookup "status" = some "STATUS_SUCCEEDED") :
    (add_item_to_playlist yt pid vid q1 0 mr rd false us calls).status
        = .success ∧
    (add_item_to_playlist yt pid vid q2 0 mr rd false
        (add_item_to_playlist yt pid vid q1 0 mr rd false us calls).uniqueSongs
        (add_item_to_playlist yt pid vid q1 0 mr rd false us calls).calls).status
        = .duplicate ∧
    (add_item_to_playlist yt pid vid q2 0 mr rd false
        (add_item_to_playlist yt pid vid q1 0 mr rd false us calls).uniqueSongs
        (add_item_to_playlist yt pid vid q1 0 mr rd false us calls).calls).calls
        = (add_item_to_playlist yt pid vid q1 0 mr rd false us calls).calls := by
  have hd : ¬(vid ∈ us ∧ false = false) := fun hh => hvid hh.1
  have h1 := addItem_ok yt pid vid q1 0 mr rd false us calls resp hd hresp
  rw [if_pos hmarker] at h1
  have hmem : vid ∈ setAdd us vid := by
    unfold setAdd
    by_cases h : vid ∈ us
    · rw [if_pos h]; exact h
    · rw [if_neg h]; exact List.mem_cons_self vid us
  rw [h1]
  have h2 := addItem_dup yt pid vid q2 0 mr rd false (setAdd us vid) (calls + 1)
    ⟨hmem, rfl⟩
  exact ⟨rfl, by rw [h2], by rw [h2]⟩

/-- Witness for the amended C2: a concrete pair of same-id insertions
against a marker-responding client. -/
theorem claim_c2_duplicate_suppression_witness :
    (add_item_to_playlist markerClient "PL" "v1" "a" 0 2 6 false [] 0).status
        = .success ∧
    (add_item_to_playlist markerClient "PL" "v1" "b" 0 2 6 false
        (add_item_to_playlist markerClient "PL" "v1" "a" 0 2 6 false [] 0).uniqueSongs
        (add_item_to_playlist markerClient "PL" "v1" "a" 0 2 6 false [] 0).calls).status
        = .duplicate ∧
    (add_item_to_playlist markerClient "PL" "v1" "b" 0 2 6 false
        (add_item_to_playlist markerClient "PL" "v1" "a" 0 2 6 false [] 0).uniqueSongs
        (add_item_to_playlist markerClient "PL" "v1" "a" 0 2 6 false [] 0).calls).calls
        = (add_item_to_playlist markerClient "PL" "v1" "a" 0 2 6 false [] 0).calls :=
  claim_c2_duplicate_suppression markerClient "PL" "v1" "a" "b" 2 6 [] 0
    (by decide) [("status", "STATUS_SUCCEEDED")] rfl rfl

/-- Counterexample to C3 as stated: a transport error raised by the remote
search propagates out of `add_songs_to_playlist` and aborts the run — it is
not caught and converted into a bucket. -/
theorem claim_c3_counterexample :
    add_songs_to_playlist searchDownClient "PL" ["a"] 2 6 false =
      .error "read timed out" :=
  rfl

/-- Claim C3 (amended): errors raised by the remote insertion call are all
caught inside the per-query boundary (they become bucketed outcomes), so
whenever the remote search itself never raises, the whole batch completes
with a report for every behaviour of the insertion endpoint; but an error
raised by the remote search is not caught and aborts the run. -/
theorem claim_c3_insertion_errors_caught (yt : YTMusic) (pid : String)
    (queries : List String) (mr rd : Nat) (ad : Bool)
    (hs : ∀ s f, ∃ rs, yt.search s f = .ok rs) :
    ∃ report, add_songs_to_playlist yt pid queries mr rd ad = .ok report := by
  obtain ⟨st', h⟩ := runQueries_total yt pid mr rd ad hs queries
    ⟨[], [], [], [], [], 0⟩
  exact ⟨⟨queries.length, st'.successful, st'.failed, st'.not_found,
    st'.duplicates⟩, by unfold add_songs_to_playlist; rw [h]⟩

/-- Witness for the amended C3: a run whose insertions all raise still
completes with a report (the failures are bucketed). -/
theorem claim_c3_insertion_errors_caught_witness :
    ∃ report, add_songs_to_playlist insertTimeoutClient "PL" ["a"] 2 6 false =
      .ok report :=
  claim_c3_insertion_errors_caught insertTimeoutClient "PL" ["a"] 2 6 false
    (fun _ _ => ⟨[fixedTrack], rfl⟩)

/-- Client whose insertions answer with an empty response record. -/
def emptyResponseClient : YTMusic :=
  ⟨fun _ _ => .ok [fixedTrack], fun _ _ _ _ => .ok []⟩

/-- Claim C4: if every remote insertion call raises an HTTP 409 conflict,
`add_item_to_playlist` starting from `retries = 0` performs exactly
`max_retries` retries with backoff sleeps
`retry_delay*1, …, retry_delay*max_retries` (so `max_retries + 1` remote
calls in total) and returns failure; and an exception that is not an HTTP
409 conflict is never retried — it yields failure immediately after a
single remote call with no sleep. -/
theorem claim_c4_retry_bound (yt : YTMusic) (pid vid q : String) (mr rd : Nat)
    (ad : Bool) (us : List String) (calls : Nat)
    (hd : ¬(vid ∈ us ∧ ad = false)) :
    ((∀ n, ∃ e, yt.addPlaylistItems pid [vid] ad n = .error e ∧
        isConflict e = true) →
      add_item_to_playlist yt pid vid q 0 mr rd ad us calls =
        ⟨.failure, us, calls + mr + 1,
          (List.range mr).map fun i => rd * (i + 1)⟩) ∧
    (∀ (retries : Nat) (e : String),
      yt.addPlaylistItems pid [vid] ad calls = .error e →
      isConflict e = false →
      add_item_to_playlist yt pid vid q retries mr rd ad us calls =
        ⟨.failure, us, calls + 1, []⟩) := by
  constructor
  · intro herr
    have h := addItem_persistent_conflict yt pid vid q rd ad us hd herr mr 0 mr
      calls rfl
    simpa using h
  · intro retries e he hc
    exact addItem_other_error yt pid vid q retries mr rd ad us calls e hd he hc

/-- Witness for C4: a persistently conflicting endpoint yields failure
after two retries with sleeps 6 and 12; a timeout is not retried. -/
theorem claim_c4_retry_bound_witness :
    (add_item_to_playlist conflictClient "PL" "v1" "a" 0 2 6 false [] 0 =
      ⟨.failure, [], 0 + 2 + 1, (List.range 2).map fun i => 6 * (i + 1)⟩) ∧
    (add_item_to_playlist insertTimeoutClient "PL" "v1" "a" 0 2 6 false [] 0 =
      ⟨.failure, [], 0 + 1, []⟩) :=
  ⟨(claim_c4_retry_bound conflictClient "PL" "v1" "a" 2 6 false [] 0
      (by decide)).1 (fun _ => ⟨"HTTP 409: Conflict", rfl, by decide⟩),
   (claim_c4_retry_bound insertTimeoutClient "PL" "v1" "a" 2 6 false [] 0
      (by decide)).2 0 "read timed out" rfl (by decide)⟩

/-- Claim C5: the registry is extended (by exactly the attempted
`video_id`) only when some remote response carried the explicit
`STATUS_SUCCEEDED` marker and the outcome is Success; in every other case
(duplicate, failure, optimistic success) it is returned unchanged.
Consequently, after a run of responses without the marker — in particular
after an optimistic Success — a second call with the same `video_id` and
`allow_duplicates = false` still reaches the remote instead of returning
Duplicate. -/
theorem claim_c5_registry_frame (yt : YTMusic) (pid vid q : String)
    (mr rd : Nat) (ad : Bool) (us : List String) (calls : Nat)
    (hvid : vid ∉ us) :
    ((add_item_to_playlist yt pid vid q 0 mr rd ad us calls).uniqueSongs = us ∨
     ((add_item_to_playlist yt pid vid q 0 mr rd ad us calls).uniqueSongs =
        setAdd us vid ∧
      (add_item_to_playlist yt pid vid q 0 mr rd ad us calls).status =
        .success ∧
      ∃ (n : Nat) (resp : Response), calls ≤ n ∧
        n < (add_item_to_playlist yt pid vid q 0 mr rd ad us calls).calls ∧
        yt.addPlaylistItems pid [vid] ad n = .ok resp ∧
        resp.lookup "status" = some "STATUS_SUCCEEDED")) ∧
    ((∀ (n : Nat) (resp : Response),
        yt.addPlaylistItems pid [vid] false n = .ok resp →
        resp.lookup "status" ≠ some "STATUS_SUCCEEDED") →
      (add_item_to_playlist yt pid vid q 0 mr rd false us calls).uniqueSongs
          = us ∧
      (add_item_to_playlist yt pid vid q 0 mr rd false
        (add_item_to_playlist yt pid vid q 0 mr rd false us calls).uniqueSongs
        (add_item_to_playlist yt pid vid q 0 mr rd false us calls).calls).status
          ≠ .duplicate ∧
      (add_item_to_playlist yt pid vid q 0 mr rd false us calls).calls <
      (add_item_to_playlist yt pid vid q 0 mr rd false
        (add_item_to_playlist yt pid vid q 0 mr rd false us calls).uniqueSongs
        (add_item_to_playlist yt pid vid q 0 mr rd false us calls).calls).calls) := by
  constructor
  · exact addItem_registry_frame yt pid vid q rd ad us (mr - 0) 0 mr calls
      (le_refl _)
  · intro hm
    have hreg := addItem_no_marker_registry yt pid vid q 0 mr rd false us calls
      hm
    have hd2 : ¬(vid ∈ us ∧ false = false) := fun hh => hvid hh.1
    refine ⟨hreg, ?_, ?_⟩
    · rw [hreg]
      exact (addItem_reaches_remote yt pid vid q rd false us hd2 (mr - 0) 0 mr
        _ (le_refl _)).1
    · rw [hreg]
      exact (addItem_reaches_remote yt pid vid q rd false us hd2 (mr - 0) 0 mr
        _ (le_refl _)).2

/-- Witness for C5: against a client whose responses never carry the
marker, the registry stays empty and the repeat insertion is not a
duplicate. -/
theorem claim_c5_registry_frame_witness :
    ((add_item_to_playlist optimisticClient "PL" "v1" "a" 0 2 6 false [] 0).uniqueSongs = [] ∨
     ((add_item_to_playlist optimisticClient "PL" "v1" "a" 0 2 6 false [] 0).uniqueSongs =
        setAdd [] "v1" ∧
      (add_item_to_playlist optimisticClient "PL" "v1" "a" 0 2 6 false [] 0).status =
        .success ∧
      ∃ (n : Nat) (resp : Response), 0 ≤ n ∧
        n < (add_item_to_playlist optimisticClient "PL" "v1" "a" 0 2 6 false [] 0).calls ∧
        optimisticClient.addPlaylistItems "PL" ["v1"] false n = .ok resp ∧
        resp.lookup "status" = some "STATUS_SUCCEEDED")) ∧
    ((∀ (n : Nat) (resp : Response),
        optimisticClient.addPlaylistItems "PL" ["v1"] false n = .ok resp →
        resp.lookup "status" ≠ some "STATUS_SUCCEEDED") →
      (add_item_to_playlist optimisticClient "PL" "v1" "a" 0 2 6 false [] 0).uniqueSongs
          = [] ∧
      (add_item_to_playlist optimisticClient "PL" "v1" "a" 0 2 6 false
        (add_item_to_playlist optimisticClient "PL" "v1" "a" 0 2 6 false [] 0).uniqueSongs
        (add_item_to_playlist optimisticClient "PL" "v1" "a" 0 2 6 false [] 0).calls).status
          ≠ .duplicate ∧
      (add_item_to_playlist optimisticClient "PL" "v1" "a" 0 2 6 false [] 0).calls <
      (add_item_to_playlist optimisticClient "PL" "v1" "a" 0 2 6 false
        (add_item_to_playlist optimisticClient "PL" "v1" "a" 0 2 6 false [] 0).uniqueSongs
        (add_item_to_playlist optimisticClient "PL" "v1" "a" 0 2 6 false [] 0).calls).calls) :=
  claim_c5_registry_frame optimisticClient "PL" "v1" "a" 2 6 false [] 0
    (by decide)

/-- Claim C6: when the remote insertion call returns without raising, a
response whose `status` field is `STATUS_SUCCEEDED` yields Success with
the id inserted into the registry; any other non-empty response yields
(optimistic) Success with the registry unchanged; an empty/absent response
yields Failure. -/
theorem claim_c6_response_cases (yt : YTMusic) (pid vid q : String)
    (retries mr rd : Nat) (ad : Bool) (us : List String) (calls : Nat)
    (resp : Response) (hd : ¬(vid ∈ us ∧ ad = false))
    (hresp : yt.addPlaylistItems pid [vid] ad calls = .ok resp) :
    (resp.lookup "status" = some "STATUS_SUCCEEDED" →
      add_item_to_playlist yt pid vid q retries mr rd ad us calls =
        ⟨.success, setAdd us vid, calls + 1, []⟩) ∧
    (resp.lookup "status" ≠ some "STATUS_SUCCEEDED" → resp ≠ [] →
      add_item_to_playlist yt pid vid q retries mr rd ad us calls =
        ⟨.success, us, calls + 1, []⟩) ∧
    (resp = [] →
      add_item_to_playlist yt pid vid q retries mr rd ad us calls =
        ⟨.failure, us, calls + 1, []⟩) := by
  have h := addItem_ok yt pid vid q retries mr rd ad us calls resp hd hresp
  refine ⟨fun hm => ?_, fun hm hne => ?_, fun hnil => ?_⟩
  · rw [h, if_pos hm]
  · rw [h, if_neg hm, if_pos hne]
  · subst hnil
    rw [h]
    simp

/-- Witness for C6: the three response shapes observed on concrete
clients. -/
theorem claim_c6_response_cases_witness :
    (add_item_to_playlist markerClient "PL" "v1" "a" 0 2 6 false [] 0 =
      ⟨.success, setAdd [] "v1", 0 + 1, []⟩) ∧
    (add_item_to_playlist optimisticClient "PL" "v1" "a" 0 2 6 false [] 0 =
      ⟨.success, [], 0 + 1, []⟩) ∧
    (add_item_to_playlist emptyResponseClient "PL" "v1" "a" 0 2 6 false [] 0 =
      ⟨.failure, [], 0 + 1, []⟩) :=
  ⟨(claim_c6_response_cases markerClient "PL" "v1" "a" 0 2 6 false [] 0
      [("status", "STATUS_SUCCEEDED")] (by decide) rfl).1 rfl,
   (claim_c6_response_cases optimisticClient "PL" "v1" "a" 0 2 6 false [] 0
      [("random", "x")] (by decide) rfl).2.1 (by decide) (by decide),
   (claim_c6_response_cases emptyResponseClient "PL" "v1" "a" 0 2 6 false [] 0
      [] (by decide) rfl).2.2 rfl⟩

/-- Claim C7: in perfect mode the query is double-quoted before both
remote searches; the result is the first case-insensitive exact title
match among song results, else among video results, and `none` exactly
when neither scan finds such a match — the unscoped top result is never
returned. -/
theorem claim_c7_perfect_mode (yt : YTMusic) (query : String)
    (rs vs : List SearchResult)
    (hs : yt.search ("\"" ++ query ++ "\"") .songs = .ok rs)
    (hv : yt.search ("\"" ++ query ++ "\"") .videos = .ok vs) :
    search_song yt query true =
      .ok (match findPerfectMatch query rs with
           | some r => some r
           | none => findPerfectMatch query vs) ∧
    (search_song yt query true = .ok none ↔
      findPerfectMatch query rs = none ∧ findPerfectMatch query vs = none) := by
  have h := search_song_perfect yt query rs vs hs hv
  refine ⟨h, ?_⟩
  rw [h]
  cases hf : findPerfectMatch query rs <;>
    cases hg : findPerfectMatch query vs <;> simp [hf, hg]

/-- Witness for C7: a concrete perfect-mode resolution that skips the
top-ranked song and returns the case-insensitive exact title match. -/
theorem claim_c7_perfect_mode_witness :
    search_song perfectClient "hello world" true =
      .ok (match findPerfectMatch "hello world"
              [⟨some "Other Song", some "s1"⟩, ⟨some "HELLO world", some "s2"⟩] with
           | some r => some r
           | none => findPerfectMatch "hello world"
              [⟨some "hello WORLD", some "w1"⟩]) ∧
    (search_song perfectClient "hello world" true = .ok none ↔
      findPerfectMatch "hello world"
        [⟨some "Other Song", some "s1"⟩, ⟨some "HELLO world", some "s2"⟩] = none ∧
      findPerfectMatch "hello world"
        [⟨some "hello WORLD", some "w1"⟩] = none) :=
  claim_c7_perfect_mode perfectClient "hello world"
    [⟨some "Other Song", some "s1"⟩, ⟨some "HELLO world", some "s2"⟩]
    [⟨some "hello WORLD", some "w1"⟩] rfl rfl

/-- Claim C8: in non-perfect mode the result is the first song result when
the song search is non-empty, else the first video result, and `none`
exactly when both searches return empty lists. -/
theorem claim_c8_nonperfect_mode (yt : YTMusic) (query : String)
    (rs vs : List SearchResult)
    (hs : yt.search query .songs = .ok rs)
    (hv : yt.search query .videos = .ok vs) :
    search_song yt query false =
      .ok (match rs with | [] => vs.head? | r :: _ => some r) ∧
    (search_song yt query false = .ok none ↔ rs = [] ∧ vs = []) := by
  have h := search_song_nonperfect yt query rs vs hs hv
  refine ⟨h, ?_⟩
  rw [h]
  cases rs <;> cases vs <;> simp

/-- Witness for C8: a concrete non-perfect resolution taking the first
song result. -/
theorem claim_c8_nonperfect_mode_witness :
    search_song perfectClient "x" false =
      .ok (match [(⟨some "Other Song", some "s1"⟩ : SearchResult),
              ⟨some "HELLO world", some "s2"⟩] with
           | [] => [(⟨some "hello WORLD", some "w1"⟩ : SearchResult)].head?
           | r :: _ => some r) ∧
    (search_song perfectClient "x" false = .ok none ↔
      [(⟨some "Other Song", some "s1"⟩ : SearchResult),
        ⟨some "HELLO world", some "s2"⟩] = [] ∧
      [(⟨some "hello WORLD", some "w1"⟩ : SearchResult)] = []) :=
  claim_c8_nonperfect_mode perfectClient "x"
    [⟨some "Other Song", some "s1"⟩, ⟨some "HELLO world", some "s2"⟩]
    [⟨some "hello WORLD", some "w1"⟩] rfl rfl

/-- Claim C9: resolution is a deterministic function of the query, the
flag and the remote search responses: clients with identical search
behaviour resolve every query identically (in particular, repeating a
resolution against an unchanged index gives the same result). -/
theorem claim_c9_resolution_deterministic (yt1 yt2 : YTMusic)
    (query : String) (pm : Bool)
    (h : ∀ s f, yt1.search s f = yt2.search s f) :
    search_song yt1 query pm = search_song yt2 query pm :=
  search_song_eq_of_search_eq yt1 yt2 query pm h

/-- Witness for C9: two clients that differ in insertion behaviour but
share the search function resolve a query identically. -/
theorem claim_c9_resolution_deterministic_witness :
    search_song markerClient "a" false = search_song optimisticClient "a" false :=
  claim_c9_resolution_deterministic markerClient optimisticClient "a" false
    (fun _ _ => rfl)

/-- Claim C10: the retry recursion terminates with depth bounded by
`max_retries - retries`: at most that many retries (observable as backoff
sleeps) and at most one more remote call than that, whatever the remote
responses. -/
theorem claim_c10_retry_depth_bound (yt : YTMusic) (pid vid q : String)
    (retries mr rd : Nat) (ad : Bool) (us : List String) (calls : Nat)
    (_h : retries ≤ mr) :
    (add_item_to_playlist yt pid vid q retries mr rd ad us calls).sleeps.length
        ≤ mr - retries ∧
    (add_item_to_playlist yt pid vid q retries mr rd ad us calls).calls
        ≤ calls + (mr - retries) + 1 :=
  addItem_bounds yt pid vid q rd ad us (mr - retries) retries mr calls
    (le_refl _)

/-- Witness for C10: depth bound at a concrete persistently conflicting
endpoint. -/
theorem claim_c10_retry_depth_bound_witness :
    (0 : Nat) ≤ 2 ∧
    ((add_item_to_playlist conflictClient "PL" "v1" "a" 0 2 6 false [] 0).sleeps.length
        ≤ 2 - 0 ∧
     (add_item_to_playlist conflictClient "PL" "v1" "a" 0 2 6 false [] 0).calls
        ≤ 0 + (2 - 0) + 1) :=
  ⟨by decide, claim_c10_retry_depth_bound conflictClient "PL" "v1" "a" 0 2 6
    false [] 0 (by decide)⟩

end TxtToYtmusic
